import Mathlib

/-!
Shallow embedding of the `user_passport` ink! contract (src/lib.rs).

The contract stores a single `UserPassport` record.  The host delivers each
call with an authenticated caller id (`Self::env().caller()` in the source);
here the caller is an explicit parameter of every operation.  `AccountId` is
an opaque identity on which only equality is used, so it is modelled as `Nat`.
The `assets` field is an `ink_storage::Mapping<AccountId, u32>` whose lookups
yield `Option`; it is modelled as a function `Nat → Option Nat`.
-/

namespace UserPassportContract

/-- The single error kind of the contract (`enum Error` in src/lib.rs). -/
inductive Error where
  | CallerIsNotAnOwner
deriving DecidableEq, Repr

/-- The contract storage struct (`struct UserPassport` in src/lib.rs). -/
structure UserPassport where
  /-- User surname -/
  surname : String
  /-- User name -/
  name : String
  /-- User birthday as Unix Timestamp (u64) -/
  birthday : Nat
  /-- Counter of user assets (`Mapping<AccountId, u32>`); lookup is `Option`-valued -/
  assets : Nat → Option Nat
  /-- User secret metadata -/
  metadata : String
  /-- Marks client's smart contract as active -/
  active : Bool
  /-- Contract owner -/
  owner : Nat

/-- Constructor `UserPassport::new`: initializes every field from the
arguments, sets `owner` to the caller, `active` to `true`, and leaves the
`assets` mapping empty (`// assets are empty initialized`). -/
def UserPassport.new (caller : Nat) (surname name : String) (birthday : Nat)
    (metadata : String) : UserPassport :=
  { surname := surname
    name := name
    birthday := birthday
    assets := fun _ => none
    metadata := metadata
    active := true
    owner := caller }

/-- `get_user_name`: full "{surname} {name}" for the owner, `surname` alone
for anyone else.  A `&self` message: it cannot mutate the record. -/
def get_user_name (caller : Nat) (p : UserPassport) : String :=
  if caller = p.owner then p.surname ++ " " ++ p.name else p.surname

/-- `is_active`: returns the `active` flag; no privilege check. -/
def is_active (p : UserPassport) : Bool :=
  p.active

/-- `deactivate`: if the caller is the owner, set `active := false` and
return `Ok(())`; otherwise return `Err(CallerIsNotAnOwner)` leaving the
record untouched.  Returns the result paired with the post-state. -/
def deactivate (caller : Nat) (p : UserPassport) :
    Except Error Unit × UserPassport :=
  if caller = p.owner then (Except.ok (), { p with active := false })
  else (Except.error Error.CallerIsNotAnOwner, p)

/-- `get_metadata`: the stored metadata for the owner, the
`CallerIsNotAnOwner` error for anyone else.  A `&self` message. -/
def get_metadata (caller : Nat) (p : UserPassport) : Except Error String :=
  if caller = p.owner then Except.ok p.metadata
  else Except.error Error.CallerIsNotAnOwner

/-- One invocation of an exposed message, tagged with its caller. -/
inductive Op where
  | getUserName (caller : Nat)
  | isActive (caller : Nat)
  | deactivate (caller : Nat)
  | getMetadata (caller : Nat)
deriving DecidableEq, Repr

/-- State transition of one invocation.  `get_user_name`, `is_active` and
`get_metadata` are `&self` messages in the source, so only `deactivate`
can change the record. -/
def step (p : UserPassport) (op : Op) : UserPassport :=
  match op with
  | Op.deactivate c => (deactivate c p).2
  | _ => p

/-- Run a sequence of invocations from a given record state. -/
def run (p : UserPassport) : List Op → UserPassport
  | [] => p
  | op :: ops => run (step p op) ops

/-- A concrete record used by witnesses: owner is identity `1`. -/
def pEx : UserPassport :=
  UserPassport.new 1 "Ivanov" "Ivan" 503556108 "meta64"

/-- Helper: no invocation changes the stored owner. -/
theorem step_owner_eq (p : UserPassport) (op : Op) : (step p op).owner = p.owner := by
  cases op <;> simp only [step, deactivate]
  split <;> simp

/-- Helper: once `active` is `false`, one invocation keeps it `false`. -/
theorem step_active_false (p : UserPassport) (op : Op) (h : p.active = false) :
    (step p op).active = false := by
  cases op with
  | deactivate c =>
    simp only [step, deactivate]
    split <;> simp [h]
  | getUserName c => exact h
  | isActive c => exact h
  | getMetadata c => exact h

/-- C1: `get_user_name` called by the owner returns exactly
`surname ++ " " ++ name`, and called by any non-owner returns exactly
`surname`, never including the given name. -/
theorem get_user_name_owner_gated (p : UserPassport) (c : Nat) :
    (c = p.owner → get_user_name c p = p.surname ++ " " ++ p.name) ∧
    (c ≠ p.owner → get_user_name c p = p.surname) := by
  constructor <;> intro h <;> simp [get_user_name, h]

/-- Witness for C1 at a concrete record: the owner (id 1) sees the full
name, a stranger (id 2) sees only the surname. -/
theorem get_user_name_owner_gated_witness :
    get_user_name 1 pEx = "Ivanov Ivan" ∧ get_user_name 2 pEx = "Ivanov" :=
  ⟨(get_user_name_owner_gated pEx 1).1 rfl,
   (get_user_name_owner_gated pEx 2).2 (by decide)⟩

/-- C2: on a freshly constructed record, `get_metadata` called by the owner
returns `Ok` with exactly the metadata passed at construction, and called by
any non-owner returns `Err(CallerIsNotAnOwner)`. -/
theorem get_metadata_owner_gated (X : Nat) (s n : String) (b : Nat)
    (m : String) (c : Nat) :
    (c = X → get_metadata c (UserPassport.new X s n b m) = Except.ok m) ∧
    (c ≠ X → get_metadata c (UserPassport.new X s n b m) =
      Except.error Error.CallerIsNotAnOwner) := by
  constructor <;> intro h <;> simp [get_metadata, UserPassport.new, h]

/-- Witness for C2 at a concrete record. -/
theorem get_metadata_owner_gated_witness :
    get_metadata 1 (UserPassport.new 1 "s" "n" 7 "secret") = Except.ok "secret" ∧
    get_metadata 2 (UserPassport.new 1 "s" "n" 7 "secret") =
      Except.error Error.CallerIsNotAnOwner :=
  ⟨(get_metadata_owner_gated 1 "s" "n" 7 "secret" 1).1 rfl,
   (get_metadata_owner_gated 1 "s" "n" 7 "secret" 2).2 (by decide)⟩

/-- C3: whenever the caller differs from the owner, `deactivate` and
`get_metadata` return the error as an explicit result value and the record
state is completely unchanged. -/
theorem non_owner_error_state_unchanged (p : UserPassport) (c : Nat)
    (h : c ≠ p.owner) :
    (deactivate c p).1 = Except.error Error.CallerIsNotAnOwner ∧
    (deactivate c p).2 = p ∧
    get_metadata c p = Except.error Error.CallerIsNotAnOwner := by
  simp [deactivate, get_metadata, h]

/-- Witness for C3: caller 2 on a record owned by 1. -/
theorem non_owner_error_state_unchanged_witness :
    (deactivate 2 pEx).1 = Except.error Error.CallerIsNotAnOwner ∧
    (deactivate 2 pEx).2 = pEx ∧
    get_metadata 2 pEx = Except.error Error.CallerIsNotAnOwner :=
  non_owner_error_state_unchanged pEx 2 (by decide)

/-- C4: `deactivate` called by the owner returns `Ok(())` and the resulting
record answers `false` to `is_active`. -/
theorem deactivate_by_owner (p : UserPassport) (c : Nat) (h : c = p.owner) :
    (deactivate c p).1 = Except.ok () ∧
    is_active (deactivate c p).2 = false := by
  simp [deactivate, is_active, h]

/-- Witness for C4: the owner (id 1) deactivates the concrete record. -/
theorem deactivate_by_owner_witness :
    (deactivate 1 pEx).1 = Except.ok () ∧
    is_active (deactivate 1 pEx).2 = false :=
  deactivate_by_owner pEx 1 rfl

/-- C5: deactivation by the owner is idempotent: both calls return `Ok(())`
(the second one on an already-inactive record), and the final state has
`active = false`. -/
theorem deactivate_idempotent (p : UserPassport) (c : Nat) (h : c = p.owner) :
    (deactivate c p).1 = Except.ok () ∧
    (deactivate c (deactivate c p).2).1 = Except.ok () ∧
    (deactivate c (deactivate c p).2).2.active = false := by
  subst h
  simp [deactivate]

/-- Witness for C5 on the concrete record. -/
theorem deactivate_idempotent_witness :
    (deactivate 1 pEx).1 = Except.ok () ∧
    (deactivate 1 (deactivate 1 pEx).2).1 = Except.ok () ∧
    (deactivate 1 (deactivate 1 pEx).2).2.active = false :=
  deactivate_idempotent pEx 1 rfl

/-- C6: `active` starts `true` at construction, once `false` it stays
`false` under every sequence of invocations, and the only invocation that
changes it at all is a `deactivate` whose caller is the owner (and it lowers
the flag to `false`). -/
theorem active_one_way :
    (∀ (c : Nat) (s n : String) (b : Nat) (m : String),
        (UserPassport.new c s n b m).active = true) ∧
    (∀ (p : UserPassport) (ops : List Op),
        p.active = false → (run p ops).active = false) ∧
    (∀ (p : UserPassport) (op : Op), (step p op).active ≠ p.active →
        op = Op.deactivate p.owner ∧ (step p op).active = false) := by
  refine ⟨fun c s n b m => rfl, ?_, ?_⟩
  · intro p ops
    induction ops generalizing p with
    | nil => exact fun h => h
    | cons op ops ih => exact fun h => ih _ (step_active_false p op h)
  · intro p op h
    cases op with
    | deactivate c =>
      by_cases hc : c = p.owner
      · subst hc
        simp_all [step, deactivate]
      · simp [step, deactivate, hc] at h
    | getUserName c => simp [step] at h
    | isActive c => simp [step] at h
    | getMetadata c => simp [step] at h

/-- Witness for C6: each conjunct applied at concrete inputs; the run starts
from the deactivated concrete record and the changing invocation is an
owner deactivation. -/
theorem active_one_way_witness :
    (UserPassport.new 1 "a" "b" 0 "m").active = true ∧
    (run (deactivate 1 pEx).2 [Op.isActive 2, Op.getMetadata 1]).active = false ∧
    (Op.deactivate 1 = Op.deactivate pEx.owner ∧
      (step pEx (Op.deactivate 1)).active = false) :=
  ⟨active_one_way.1 1 "a" "b" 0 "m",
   active_one_way.2.1 (deactivate 1 pEx).2 [Op.isActive 2, Op.getMetadata 1]
     (by decide),
   active_one_way.2.2 pEx (Op.deactivate 1) (by decide)⟩

/-- C7: the stored owner is immutable: no invocation, by any caller,
succeeding or failing, changes it — neither one step nor any sequence. -/
theorem owner_immutable (p : UserPassport) (op : Op) (ops : List Op) :
    (step p op).owner = p.owner ∧ (run p ops).owner = p.owner := by
  refine ⟨step_owner_eq p op, ?_⟩
  induction ops generalizing p with
  | nil => rfl
  | cons o os ih => exact (ih (step p o)).trans (step_owner_eq p o)

/-- C8: construction by identity `X` always succeeds (the constructor is a
total function) and yields a record whose fields equal the arguments, whose
owner is `X`, and whose active flag is `true`. -/
theorem new_initial_state (X : Nat) (s n : String) (b : Nat) (m : String) :
    (UserPassport.new X s n b m).surname = s ∧
    (UserPassport.new X s n b m).name = n ∧
    (UserPassport.new X s n b m).birthday = b ∧
    (UserPassport.new X s n b m).metadata = m ∧
    (UserPassport.new X s n b m).owner = X ∧
    (UserPassport.new X s n b m).active = true := by
  simp [UserPassport.new]

/-- Counterexample for C9: in this source the constructor leaves the assets
mapping empty (`// assets are empty initialized`), so after construction by
identity 5 the assets entry for 5 is not `1`. -/
theorem new_assets_not_one :
    ¬ (UserPassport.new 5 "s" "n" 0 "m").assets 5 = some 1 := by
  simp [UserPassport.new]

/-- C9 (amended): construction leaves the assets mapping empty; the lookup
for every identity, including the creator, returns nothing. -/
theorem new_assets_empty (X : Nat) (s n : String) (b : Nat) (m : String)
    (a : Nat) : (UserPassport.new X s n b m).assets a = none :=
  rfl

/-- C10: two records that agree on surname, active flag and owner but differ
arbitrarily in name and metadata are indistinguishable to any non-owner
caller: every operation returns the same result on both, and the
post-states of the only mutating operation still agree on surname, active
flag and owner. -/
theorem non_owner_noninterference (p q : UserPassport) (c : Nat)
    (hs : p.surname = q.surname) (ha : p.active = q.active)
    (ho : p.owner = q.owner) (hc : c ≠ p.owner) :
    get_user_name c p = get_user_name c q ∧
    is_active p = is_active q ∧
    (deactivate c p).1 = (deactivate c q).1 ∧
    get_metadata c p = get_metadata c q ∧
    (deactivate c p).2.surname = (deactivate c q).2.surname ∧
    (deactivate c p).2.active = (deactivate c q).2.active ∧
    (deactivate c p).2.owner = (deactivate c q).2.owner := by
  have hc' : c ≠ q.owner := ho ▸ hc
  simp [get_user_name, is_active, deactivate, get_metadata, hc, hc', hs, ha, ho]

/-- Witness for C10: two records with the same surname, flag and owner but
different names, birthdays and metadata, probed by non-owner 2. -/
theorem non_owner_noninterference_witness :
    get_user_name 2 (UserPassport.new 1 "S" "N1" 0 "M1") =
      get_user_name 2 (UserPassport.new 1 "S" "N2" 7 "M2") ∧
    is_active (UserPassport.new 1 "S" "N1" 0 "M1") =
      is_active (UserPassport.new 1 "S" "N2" 7 "M2") ∧
    (deactivate 2 (UserPassport.new 1 "S" "N1" 0 "M1")).1 =
      (deactivate 2 (UserPassport.new 1 "S" "N2" 7 "M2")).1 ∧
    get_metadata 2 (UserPassport.new 1 "S" "N1" 0 "M1") =
      get_metadata 2 (UserPassport.new 1 "S" "N2" 7 "M2") ∧
    (deactivate 2 (UserPassport.new 1 "S" "N1" 0 "M1")).2.surname =
      (deactivate 2 (UserPassport.new 1 "S" "N2" 7 "M2")).2.surname ∧
    (deactivate 2 (UserPassport.new 1 "S" "N1" 0 "M1")).2.active =
      (deactivate 2 (UserPassport.new 1 "S" "N2" 7 "M2")).2.active ∧
    (deactivate 2 (UserPassport.new 1 "S" "N1" 0 "M1")).2.owner =
      (deactivate 2 (UserPassport.new 1 "S" "N2" 7 "M2")).2.owner :=
  non_owner_noninterference (UserPassport.new 1 "S" "N1" 0 "M1")
    (UserPassport.new 1 "S" "N2" 7 "M2") 2 rfl rfl rfl (by decide)

end UserPassportContract
